import Mathlib

/-!
Verification development for the Dataseer batch client
(src/dataseer_client/client.py).

The client walks a directory tree, groups matching files into batches,
posts each file to a remote service, and writes returned TEI bodies to
derived output paths.  The definitions below are a shallow embedding of
client.py together with the path-library functions it calls
(os.path / posixpath on a POSIX host, plus ntpath.basename/dirname).
Python strings are Lean Strings; the char-list level functions mirror
the CPython implementations of split, normpath, join, relpath, basename
and dirname.  Machine effects are made explicit: the remote service is
an oracle assigning an HTTP result to each successive request, the
filesystem is a map from path to optional content, and the process
working directory (read by os.path.abspath / os.path.relpath) is an
explicit argument.
-/

namespace Dataseer

/-! ### Python string split on a single separator character

Mirrors CPython str.split(sep) for a one-character separator: empty
fields are kept, and the result list is always nonempty. -/

def splitChar (sep : Char) : List Char → List (List Char)
  | [] => [[]]
  | c :: cs =>
      match splitChar sep cs with
      | [] => [[c]]
      | h :: t => if c = sep then [] :: h :: t else (c :: h) :: t

/-- Python p.startswith(sep) for the POSIX separator (posixpath.isabs). -/
def headIsSlash (p : String) : Bool :=
  decide (p.data.take 1 = ['/'])

/-- Python p.endswith(sep) for the POSIX separator. -/
def lastIsSlash (p : String) : Bool :=
  decide (p.data.getLast? = some '/')

/-! ### posixpath.normpath -/

/-- Number of leading slashes kept by posixpath.normpath: 1 normally,
2 for exactly two leading slashes (POSIX special case), 0 if relative. -/
def normSlashes (cs : List Char) : Nat :=
  if cs.take 1 = ['/'] then
    if cs.take 2 = ['/', '/'] ∧ cs.take 3 ≠ ['/', '/', '/'] then 2 else 1
  else 0

/-- One step of posixpath.normpath component processing: drop empty and
dot components; a dotdot pops the previous component unless there is
nothing to pop (at an absolute root it is dropped, at a relative start
or after another dotdot it is kept). -/
def normStep (initialSlashes : Nat) (acc : List (List Char)) (comp : List Char) :
    List (List Char) :=
  if comp = [] ∨ comp = ['.'] then acc
  else if comp ≠ ['.', '.'] ∨ (initialSlashes = 0 ∧ acc = []) ∨
      acc.getLast? = some ['.', '.'] then acc ++ [comp]
  else if acc ≠ [] then acc.dropLast
  else acc

/-- posixpath.normpath. -/
def pnormpath (p : String) : String :=
  if p = "" then "." else
  let cs := p.data
  let ini := normSlashes cs
  let comps := splitChar '/' cs
  let newComps := comps.foldl (normStep ini) []
  let joined := List.replicate ini '/' ++ List.intercalate ['/'] newComps
  if joined = [] then "." else String.mk joined

/-- posixpath.join restricted to two arguments, as used by client.py. -/
def pjoin (a b : String) : String :=
  if headIsSlash b then b
  else if a = "" ∨ lastIsSlash a then a ++ b
  else a ++ "/" ++ b

/-- os.path.abspath with the process working directory made explicit:
relative paths are joined onto cwd, then normalised. -/
def pabspath (p cwd : String) : String :=
  if headIsSlash p then pnormpath p else pnormpath (pjoin cwd p)

/-- The nonempty components of a path, as used by posixpath.relpath. -/
def nonEmptyComps (p : String) : List (List Char) :=
  (splitChar '/' p.data).filter (fun comp => comp ≠ [])

/-- Length of the common prefix of two component lists
(os.path.commonprefix on lists). -/
def commonPrefixLen : List (List Char) → List (List Char) → Nat
  | a :: as, b :: bs => if a = b then commonPrefixLen as bs + 1 else 0
  | _, _ => 0

/-- posixpath.relpath with the working directory explicit.  An empty
start is replaced by the current directory, both arguments are made
absolute, and the result climbs with dotdot components before
descending along the remainder of the target path. -/
def prelpath (p start cwd : String) : String :=
  let start := if start = "" then "." else start
  let startList := nonEmptyComps (pabspath start cwd)
  let pathList := nonEmptyComps (pabspath p cwd)
  let i := commonPrefixLen startList pathList
  let relList := List.replicate (startList.length - i) ['.', '.'] ++ pathList.drop i
  if relList = [] then "." else String.mk (List.intercalate ['/'] relList)

/-! ### basename / dirname (posixpath and ntpath) -/

/-- Split a character list after the last separator occurrence, as the
Python basename/dirname helpers do with rfind: the first part is p[:i]
(keeping the trailing separator), the second is p[i:], where i is one
past the last separator (0 when there is none). -/
def splitLastSep (seps : List Char) (cs : List Char) : List Char × List Char :=
  ((cs.reverse.dropWhile (fun c => !seps.contains c)).reverse,
   (cs.reverse.takeWhile (fun c => !seps.contains c)).reverse)

/-- posixpath.basename. -/
def pbasename (p : String) : String :=
  String.mk (splitLastSep ['/'] p.data).2

/-- ntpath.splitdrive for drive-letter paths (UNC shares, absent from
this client's inputs, are not modelled). -/
def ntSplitdrive : List Char → List Char × List Char
  | a :: ':' :: rest => ([a, ':'], rest)
  | cs => ([], cs)

/-- ntpath.split: strip the drive, split at the last of the two Windows
separators, and trim trailing separators from the head unless it is all
separators. -/
def ntSplit (p : String) : String × String :=
  let dp := ntSplitdrive p.data
  let hv := splitLastSep ['/', '\\'] dp.2
  let stripped := (hv.1.reverse.dropWhile (fun c => c = '/' ∨ c = '\\')).reverse
  let head := if stripped = [] then hv.1 else stripped
  (String.mk (dp.1 ++ head), String.mk hv.2)

/-- ntpath.basename. -/
def ntbasename (p : String) : String := (ntSplit p).2

/-- ntpath.dirname. -/
def ntdirname (p : String) : String := (ntSplit p).1

/-- Python s.split(".")[0]: the characters before the first dot. -/
def firstDotSegment (s : String) : String :=
  String.mk (s.data.takeWhile (fun c => c ≠ '.'))

/-- The fixed output suffix appended by _output_file_name. -/
def teiSuffix : String := ".dataseer.tei.xml"

/-- DataseerClient._output_file_name (client.py lines 53-67).  With an
output root configured, the name is the first dot-segment of the
basename of the input's path relative to the input root, joined under
the output root; without one, it is placed in the input's own
directory.  The working directory enters through os.path.abspath and
os.path.relpath. -/
def output_file_name (input_file input_path : String) (output : Option String)
    (cwd : String) : String :=
  match output with
  | some out =>
      let input_file_name := prelpath (pabspath input_file cwd) input_path cwd
      pjoin out (firstDotSegment (pbasename input_file_name) ++ teiSuffix)
  | none =>
      let input_file_name := ntbasename input_file
      pjoin (ntdirname input_file) (firstDotSegment (pbasename input_file_name) ++ teiSuffix)

/-! ### Configuration and service URL (DataseerClient.__init__) -/

/-- The json configuration keys read by client.py. -/
structure Config where
  dataseer_server : String
  dataseer_port : String
  batch_size : Nat
  sleep_time : Nat
  timeout_s : Nat
deriving DecidableEq

/-- The fixed endpoint names set in __init__ (client.py lines 19-21). -/
def endpoint_isalive : String := "isalive"

def endpoint_tei : String := "processDataseerTEI"

def endpoint_pdf : String := "processDataseerPDF"

/-- self.service_url as assembled in __init__ (client.py lines 23-26). -/
def serviceUrl (cfg : Config) : String :=
  let base := "http://" ++ cfg.dataseer_server
  let base := if cfg.dataseer_port.length > 0 then base ++ ":" ++ cfg.dataseer_port else base
  base ++ "/service/"

/-! ### The remote service as an oracle, and process effects

Each requests.post consumes the next entry of the oracle (indexed by
attempt number); the state also records the URLs requested so far and
how many backoff sleeps were performed, so that retry structure is
observable. -/

/-- A transport-level failure of requests.post, i.e. the three
requests.exceptions classes caught in client.py lines 194-199. -/
inductive TransportExn where
  | timeoutExn
  | tooManyRedirects
  | requestExn
deriving DecidableEq

/-- What the service does to one request: answer with a status and body
text, or fail at transport level. -/
inductive HttpResult where
  | resp (status : Nat) (text : String)
  | exn (e : TransportExn)
deriving DecidableEq

/-- State threaded through per-task execution: the oracle, the number
of requests already made, the trace of requested URLs, and the number
of backoff sleeps performed. -/
structure SvcState where
  responses : Nat → HttpResult
  attempt : Nat
  trace : List String
  sleeps : Nat

/-- One requests.post: consume the next oracle entry and record the URL. -/
def post (url : String) (s : SvcState) : HttpResult × SvcState :=
  (s.responses s.attempt,
   { s with attempt := s.attempt + 1, trace := s.trace ++ [url] })

/-- time.sleep(self.config["sleep_time"]), counted. -/
def sleepBackoff (s : SvcState) : SvcState :=
  { s with sleeps := s.sleeps + 1 }

/-- A Python exception escaping a per-task function.  The only one that
can escape process_pdf / process_tei is the UnboundLocalError raised by
the return statement in the finally clause when requests.post itself
failed and the local variable response was never assigned. -/
inductive PyExc where
  | unboundLocalError
deriving DecidableEq

/-- An Outcome tuple (file path, status code, optional body text), as
returned by process_pdf / process_tei. -/
abbrev Outcome := String × Nat × Option String

/-- DataseerClient.process_tei (client.py lines 203-240), with
recursion fuel (the Python recursion is unbounded; none models
divergence / stack exhaustion).

Faithful Python semantics of the try / except / finally block:
the finally clause ends in a return statement, so
(a) on a 503 the recursive retry's return value, or any exception it
raised, is discarded and replaced by (tei_file, 503, None) built from
the current frame's response and tei_data;
(b) the 404 branch's print raises TypeError (status_code + url, an
int plus a str), which the return in finally swallows, still yielding
(tei_file, 404, None);
(c) when requests.post raises a transport exception, the except
handlers only print, and the return in finally then reads the unbound
local response, raising UnboundLocalError out of the function. -/
def process_tei (cfg : Config) : Nat → String → SvcState →
    Option (SvcState × Except PyExc Outcome)
  | 0, _, _ => none
  | fuel + 1, tei_file, s0 =>
      let url := serviceUrl cfg ++ endpoint_tei
      let pr := post url s0
      let s1 := pr.2
      match pr.1 with
      | .exn _ => some (s1, .error .unboundLocalError)
      | .resp status text =>
          if status = 503 then
            let s2 := sleepBackoff s1
            match process_tei cfg fuel tei_file s2 with
            | none => none
            | some (s3, _) => some (s3, .ok (tei_file, 503, none))
          else if 500 ≤ status then some (s1, .ok (tei_file, status, none))
          else if status = 404 then some (s1, .ok (tei_file, 404, none))
          else if 400 ≤ status then some (s1, .ok (tei_file, status, none))
          else if status = 200 then some (s1, .ok (tei_file, 200, some text))
          else some (s1, .ok (tei_file, status, none))

/-- DataseerClient.process_pdf (client.py lines 161-201).  Identical
decision table to process_tei but posting to the PDF endpoint, except
that the 503 retry calls self.process_tei (line 175), so the retry is
posted to the TEI endpoint. -/
def process_pdf (cfg : Config) : Nat → String → SvcState →
    Option (SvcState × Except PyExc Outcome)
  | 0, _, _ => none
  | fuel + 1, pdf_file, s0 =>
      let url := serviceUrl cfg ++ endpoint_pdf
      let pr := post url s0
      let s1 := pr.2
      match pr.1 with
      | .exn _ => some (s1, .error .unboundLocalError)
      | .resp status text =>
          if status = 503 then
            let s2 := sleepBackoff s1
            match process_tei cfg fuel pdf_file s2 with
            | none => none
            | some (s3, _) => some (s3, .ok (pdf_file, 503, none))
          else if 500 ≤ status then some (s1, .ok (pdf_file, status, none))
          else if status = 404 then some (s1, .ok (pdf_file, 404, none))
          else if 400 ≤ status then some (s1, .ok (pdf_file, status, none))
          else if status = 200 then some (s1, .ok (pdf_file, 200, some text))
          else some (s1, .ok (pdf_file, status, none))

/-! ### Startup probe (DataseerClient._test_server_connection) -/

/-- Result of the startup GET to the isalive endpoint: either a
completed response with some status, or a transport-level failure of
requests.get (the bare except in client.py line 40). -/
inductive ProbeResult where
  | resp (status : Nat)
  | connFailed
deriving DecidableEq

/-- The exception raised at client.py line 44. -/
inductive ServerUnavailableException where
  | mk
deriving DecidableEq

/-- DataseerClient._test_server_connection (client.py lines 35-51):
raise ServerUnavailableException when requests.get itself failed; a
completed probe only prints (a warning when the status is not 200) and
returns normally. -/
def test_server_connection (probe : ProbeResult) :
    Except ServerUnavailableException Unit :=
  match probe with
  | .connFailed => .error .mk
  | .resp _ => .ok ()

/-- A constructed client: config plus the assembled service URL. -/
structure ClientHandle where
  config : Config
  service_url : String
deriving DecidableEq

/-- DataseerClient.__init__ (client.py lines 18-28): load the config,
assemble the service URL, then run the connectivity probe before any
processing request; construction fails exactly when the probe raises. -/
def mkDataseerClient (cfg : Config) (probe : ProbeResult) :
    Except ServerUnavailableException ClientHandle :=
  match test_server_connection probe with
  | .error e => .error e
  | .ok _ => .ok ⟨cfg, serviceUrl cfg⟩

/-! ### Batch submission, collection and writing
(DataseerClient.process_batch) -/

/-- The filesystem as a map from path to optional file content;
os.path.isfile is content presence. -/
abbrev FS := String → Option String

/-- The submission loop of process_batch (client.py lines 129-144): a
file is dispatched to the executor unless force is unset and the
derived output path already exists, in which case the loop continues
without submitting (no request, no future, hence no Outcome). -/
def batchSubmissions (input_files : List String) (input_path : String)
    (output : Option String) (cwd : String) (force : Bool) (fs : FS) : List String :=
  input_files.filter (fun f =>
    let filename := output_file_name f input_path output cwd
    !(!force && (fs filename).isSome))

/-- Write of one returned body (client.py lines 155-157): open the
derived path in mode w and write the text, overwriting any previous
content. -/
def writeResult (fs : FS) (filename text : String) : FS :=
  fun p => if p = filename then some text else fs p

/-- The collection loop of process_batch (client.py lines 146-159),
over the per-task results in completion order.  r.result() re-raises an
exception that escaped the worker, which aborts the loop (and
propagates out of process_batch); a result with no body only prints;
a result with a body is written to its derived output path. -/
def collectResults (input_path : String) (output : Option String) (cwd : String) :
    FS → List (Except PyExc Outcome) → Except PyExc FS
  | fs, [] => .ok fs
  | _fs, .error e :: _ => .error e
  | fs, .ok (_f, _status, none) :: rest => collectResults input_path output cwd fs rest
  | fs, .ok (f, _status, some text) :: rest =>
      let filename := output_file_name f input_path output cwd
      collectResults input_path output cwd (writeResult fs filename text) rest

/-! ### Enumeration and batching (DataseerClient.process) -/

/-- The extension filter of the enumeration loop (client.py lines
79-84): PDF service takes .pdf.gz or .pdf files, TEI service takes
.tei.xml files. -/
def matchesService (service filename : String) : Bool :=
  (service = "processDataseerPDF" &&
    (".pdf.gz".data.isSuffixOf filename.data || ".pdf".data.isSuffixOf filename.data))
  || (service = "processDataseerTEI" && ".tei.xml".data.isSuffixOf filename.data)

/-- The discovered input files: each os.walk entry (dirpath, filename)
passing the extension filter, joined as dirpath + os.sep + filename
(client.py line 91). -/
def discoveredFiles (service : String) (walk : List (String × String)) : List String :=
  (walk.filter (fun e => matchesService service e.2)).map (fun e => e.1 ++ "/" ++ e.2)

/-- The batching of the enumeration loop (client.py lines 77-120):
append each file to the pending list, flush a batch when the pending
list reaches batch_size, and flush the remainder as a last batch if
nonempty. -/
def batchLoop (batch_size : Nat) : List String → List String → List (List String)
  | [], acc => if acc.length > 0 then [acc] else []
  | f :: rest, acc =>
      let acc2 := acc ++ [f]
      if acc2.length = batch_size then acc2 :: batchLoop batch_size rest []
      else batchLoop batch_size rest acc2

/-- The batches dispatched by DataseerClient.process for a given walk. -/
def processBatches (cfg : Config) (service : String)
    (walk : List (String × String)) : List (List String) :=
  batchLoop cfg.batch_size (discoveredFiles service walk) []

/-- The default of the force parameter in the signature of
DataseerClient.process (client.py line 69). -/
def processForceDefault : Bool := true

/-! ### Concrete instances used by the evaluation theorems -/

/-- A sample configuration. -/
def cfgEx : Config := ⟨"localhost", "8060", 100, 5, 60⟩

/-- A service that answers 503 to the first request and 200 with body
BODY to every later one. -/
def svc503then200 : Nat → HttpResult :=
  fun n => if n = 0 then .resp 503 "" else .resp 200 "BODY"

/-- A service whose requests always fail at transport level. -/
def svcTransportFail : Nat → HttpResult := fun _ => .exn .timeoutExn

/-- A service that always answers 404. -/
def svc404 : Nat → HttpResult := fun _ => .resp 404 ""

/-- Fresh per-task state over a given oracle. -/
def st0 (responses : Nat → HttpResult) : SvcState := ⟨responses, 0, [], 0⟩

/-- The empty filesystem. -/
def fsEmpty : FS := fun _ => none

/-- Observation of a per-task run: sleeps performed, requests made,
URLs requested, and the returned Outcome (none if an exception
escaped). -/
def obsRun (r : Option (SvcState × Except PyExc Outcome)) :
    Option (Nat × Nat × List String × Option Outcome) :=
  r.map (fun p => (p.1.sleeps, p.1.attempt, p.1.trace,
    match p.2 with | .ok o => some o | .error _ => none))

/-!
## Claim theorems
-/

/-- C1: the claim fails on the code.  With a service that answers 503
once and then 200 with a body, process_tei sleeps once and does issue a
second request, but the return statement in the finally clause
(client.py line 240) overrides the recursive call's return value, so
the Task's Outcome is (file, 503, no body), not a successful Outcome
carrying the 200 body.  Moreover process_pdf's 503 retry calls
self.process_tei (line 175), so the second request of a PDF Task goes
to the TEI endpoint, not to the PDF endpoint matching the Task's kind.
This theorem evaluates the code at the failing input. -/
theorem c1_overload_retry_discarded :
    obsRun (process_tei cfgEx 5 "d.tei.xml" (st0 svc503then200)) =
      some (1, 2, ["http://localhost:8060/service/processDataseerTEI",
                   "http://localhost:8060/service/processDataseerTEI"],
            some ("d.tei.xml", 503, none))
    ∧ obsRun (process_pdf cfgEx 5 "d.pdf" (st0 svc503then200)) =
      some (1, 2, ["http://localhost:8060/service/processDataseerPDF",
                   "http://localhost:8060/service/processDataseerTEI"],
            some ("d.pdf", 503, none)) := by
  constructor <;> rfl

/-- C2: the claim fails on the code.  When requests.post raises a
transport-level exception, the except handlers only print, and the
return statement in the finally clause then evaluates
response.status_code with the local variable response never assigned
(client.py lines 194-201 / 233-240): an UnboundLocalError escapes the
per-task function, so no Outcome with a sentinel transport-failure
status is recorded.  This theorem evaluates the code at the failing
input (a first request that times out), for both task kinds. -/
theorem c2_transport_failure_raises :
    process_tei cfgEx 1 "d.tei.xml" (st0 svcTransportFail) =
      some (⟨svcTransportFail, 1,
             ["http://localhost:8060/service/processDataseerTEI"], 0⟩,
            .error .unboundLocalError)
    ∧ process_pdf cfgEx 1 "d.pdf" (st0 svcTransportFail) =
      some (⟨svcTransportFail, 1,
             ["http://localhost:8060/service/processDataseerPDF"], 0⟩,
            .error .unboundLocalError) := by
  constructor <;> rfl

/-- C3: the claim fails on the code.  A transport-level failure in one
Task escapes its worker as an exception (see C2), and r.result()
re-raises it inside the collection loop of process_batch (client.py
line 147), which aborts the loop: the sibling Task's successful body is
never written and the exception propagates, ending the run.  The same
sibling result alone is collected and written when no failing Task
precedes it in completion order. -/
theorem c3_failure_aborts_siblings :
    collectResults "/in" none "/" fsEmpty
      [.error .unboundLocalError, .ok ("/in/b.tei.xml", 200, some "OK")] =
      .error .unboundLocalError
    ∧ ∃ fs' : FS,
        collectResults "/in" none "/" fsEmpty
          [.ok ("/in/b.tei.xml", 200, some "OK")] = .ok fs'
        ∧ fs' "/in/b.dataseer.tei.xml" = some "OK" := by
  refine ⟨rfl, ⟨writeResult fsEmpty (output_file_name "/in/b.tei.xml" "/in" none "/") "OK",
    rfl, by decide⟩⟩

/-- C5: confirmed.  When the next response has status 404, both
per-task functions return the Outcome (file, 404, no body) having made
exactly one request (attempt advances by one, the trace gains only the
one endpoint URL) and no backoff sleep (the state's sleep counter is
untouched), so the failure is terminal and no retry occurs.  (The 404
print at client.py lines 179/218 actually raises a TypeError — it adds
an int to a str — but the return in the finally clause swallows it, so
the stated Outcome is still produced.) -/
theorem c5_404_terminal_no_retry (cfg : Config) (fuel : Nat) (f text : String)
    (s : SvcState) (h : s.responses s.attempt = .resp 404 text) :
    process_tei cfg (fuel + 1) f s =
      some ({ s with
              attempt := s.attempt + 1
              trace := s.trace ++ [serviceUrl cfg ++ endpoint_tei] },
            .ok (f, 404, none))
    ∧ process_pdf cfg (fuel + 1) f s =
      some ({ s with
              attempt := s.attempt + 1
              trace := s.trace ++ [serviceUrl cfg ++ endpoint_pdf] },
            .ok (f, 404, none)) := by
  unfold process_tei process_pdf post
  simp [h]

/-- Witness for C5 at a concrete 404 service. -/
theorem c5_404_terminal_no_retry_witness :
    (st0 svc404).responses (st0 svc404).attempt = .resp 404 ""
    ∧ (process_tei cfgEx 1 "a.tei.xml" (st0 svc404) =
        some ({ st0 svc404 with
                attempt := (st0 svc404).attempt + 1
                trace := (st0 svc404).trace ++ [serviceUrl cfgEx ++ endpoint_tei] },
              .ok ("a.tei.xml", 404, none))
      ∧ process_pdf cfgEx 1 "a.tei.xml" (st0 svc404) =
        some ({ st0 svc404 with
                attempt := (st0 svc404).attempt + 1
                trace := (st0 svc404).trace ++ [serviceUrl cfgEx ++ endpoint_pdf] },
              .ok ("a.tei.xml", 404, none))) :=
  ⟨rfl, c5_404_terminal_no_retry cfgEx 0 "a.tei.xml" "" (st0 svc404) rfl⟩

/-- C6: confirmed.  Client construction performs the connectivity probe
before anything else; it raises ServerUnavailableException exactly when
the probe request could not be completed at transport level, while a
probe that completes with any status (200 or not) lets construction
succeed — a non-200 status only prints a warning (client.py lines
35-51). -/
theorem c6_probe_fatal_iff_transport_failure (cfg : Config) (probe : ProbeResult) :
    ((∃ e, mkDataseerClient cfg probe = .error e) ↔ probe = .connFailed)
    ∧ ∀ status : Nat, mkDataseerClient cfg (.resp status) = .ok ⟨cfg, serviceUrl cfg⟩ := by
  refine ⟨⟨?_, ?_⟩, fun status => rfl⟩
  · rintro ⟨e, he⟩
    cases probe with
    | resp status => simp [mkDataseerClient, test_server_connection] at he
    | connFailed => rfl
  · rintro rfl
    exact ⟨.mk, rfl⟩

/-- C10: confirmed.  The force parameter of DataseerClient.process
defaults to True (client.py line 69); with that default the skip test
in process_batch never fires, so every file of the batch is submitted
regardless of what exists on disk, and a successful result is written
through mode w, overwriting any previous content at the derived
path. -/
theorem c10_default_force_dispatches_all (files : List String) (ip : String)
    (out : Option String) (cwd : String) (fs : FS) :
    batchSubmissions files ip out cwd processForceDefault fs = files
    ∧ (∀ f text, collectResults ip out cwd fs [.ok (f, 200, some text)] =
        .ok (writeResult fs (output_file_name f ip out cwd) text))
    ∧ (∀ filename text, writeResult fs filename text filename = some text) := by
  refine ⟨?_, fun f text => rfl, fun filename text => by simp [writeResult]⟩
  simp [batchSubmissions, processForceDefault]

/-! ### Helper lemmas about the path functions -/

/-- The part after the last separator contains no separator. -/
lemma splitLastSep_snd_no_sep (seps cs : List Char) :
    ∀ c ∈ (splitLastSep seps cs).2, c ∉ seps := by
  intro c hc
  simp only [splitLastSep, List.mem_reverse] at hc
  have h := List.mem_takeWhile_imp hc
  simp at h
  exact h

/-- The part after the last separator is made of characters of the
input. -/
lemma splitLastSep_snd_subset (seps cs : List Char) :
    ∀ c ∈ (splitLastSep seps cs).2, c ∈ cs := by
  intro c hc
  simp only [splitLastSep, List.mem_reverse] at hc
  exact List.mem_reverse.mp ((List.takeWhile_prefix _).sublist.subset hc)

/-- posixpath.basename never contains a slash. -/
lemma pbasename_no_slash (p : String) : ∀ c ∈ (pbasename p).data, c ≠ '/' := by
  intro c hc
  have h := splitLastSep_snd_no_sep ['/'] p.data c (by simpa [pbasename] using hc)
  simpa using h

/-- posixpath.basename only uses characters of its input. -/
lemma pbasename_subset (p : String) : ∀ c ∈ (pbasename p).data, c ∈ p.data := by
  intro c hc
  exact splitLastSep_snd_subset ['/'] p.data c (by simpa [pbasename] using hc)

/-- ntpath.basename never contains a separator of either kind. -/
lemma ntbasename_no_sep (p : String) :
    ∀ c ∈ (ntbasename p).data, c ≠ '/' ∧ c ≠ '\\' := by
  intro c hc
  have h := splitLastSep_snd_no_sep ['/', '\\'] (ntSplitdrive p.data).2 c
    (by simpa [ntbasename, ntSplit] using hc)
  simp at h
  exact ⟨h.1, h.2⟩

/-- The first dot-segment only uses characters of its input. -/
lemma firstDotSegment_subset (s : String) :
    ∀ c ∈ (firstDotSegment s).data, c ∈ s.data := by
  intro c hc
  exact (List.takeWhile_prefix _).sublist.subset (by simpa [firstDotSegment] using hc)

/-- C4 counterexample: the output path does not mirror the input's path
relative to the input root.  For input /in/sub/a.pdf with input root
/in and output root /out, the derived path is /out/a.dataseer.tei.xml —
the sub directory is dropped — and not the mirrored
/out/sub/a.dataseer.tei.xml the claim describes. -/
theorem c4_counterexample_not_mirrored :
    output_file_name "/in/sub/a.pdf" "/in" (some "/out") "/" = "/out/a.dataseer.tei.xml"
    ∧ output_file_name "/in/sub/a.pdf" "/in" (some "/out") "/" ≠ "/out/sub/a.dataseer.tei.xml" := by
  constructor
  · rfl
  · decide

/-- C4 amended: with an output root configured, the derived output path
is the output root joined with a single separator-free leaf name ending
in the fixed suffix — outputs are flattened directly under the output
root, the input's relative directory structure is not preserved; with
no output root, the derived path is the input file's own directory
(ntpath.dirname) joined with such a leaf name, i.e. the output sits
alongside the input. -/
theorem c4_output_flat_under_root (f ip out cwd : String) :
    (∃ stem : String, (∀ c ∈ stem.data, c ≠ '/')
      ∧ output_file_name f ip (some out) cwd = pjoin out (stem ++ teiSuffix))
    ∧ (∃ stem : String, (∀ c ∈ stem.data, c ≠ '/' ∧ c ≠ '\\')
      ∧ output_file_name f ip none cwd = pjoin (ntdirname f) (stem ++ teiSuffix)) := by
  constructor
  · refine ⟨firstDotSegment (pbasename (prelpath (pabspath f cwd) ip cwd)), ?_, rfl⟩
    intro c hc
    exact pbasename_no_slash _ c (firstDotSegment_subset _ c hc)
  · refine ⟨firstDotSegment (pbasename (ntbasename f)), ?_, rfl⟩
    intro c hc
    exact ntbasename_no_sep f c
      (pbasename_subset _ c (firstDotSegment_subset _ c hc))

/-- C9 counterexample: the derived output path is not a function of the
input path, input root and output root alone — it also depends on the
process working directory, which os.path.abspath and os.path.relpath
read when an argument is a relative path.  Here the input root x is
relative, and the same three arguments yield two different output paths
under two working directories. -/
theorem c9_counterexample_cwd_dependence :
    output_file_name "/in/b.pdf" "x" (some "/o") "/in/b.pdf/d"
      ≠ output_file_name "/in/b.pdf" "x" (some "/o") "/e" := by
  decide

/-- A path starting with a slash is nonempty. -/
lemma ne_empty_of_headIsSlash (p : String) (h : headIsSlash p = true) : p ≠ "" := by
  intro he
  subst he
  simp [headIsSlash] at h

/-- normpath keeps at least one leading slash of an absolute path. -/
lemma normSlashes_pos (cs : List Char) (h : cs.take 1 = ['/']) :
    0 < normSlashes cs := by
  unfold normSlashes
  rw [if_pos h]
  split <;> norm_num

/-- posixpath.normpath of an absolute path is absolute. -/
lemma pnormpath_abs (p : String) (h : headIsSlash p = true) :
    headIsSlash (pnormpath p) = true := by
  have hne : p ≠ "" := ne_empty_of_headIsSlash p h
  have ht : p.data.take 1 = ['/'] := by simpa [headIsSlash] using h
  have hpos : 0 < normSlashes p.data := normSlashes_pos p.data ht
  simp only [pnormpath, if_neg hne]
  rcases hn : normSlashes p.data with _ | k
  · omega
  · simp [hn, List.replicate_succ, headIsSlash]

/-- os.path.abspath does not read the working directory when its
argument is absolute. -/
lemma pabspath_of_abs (p : String) (h : headIsSlash p = true) (cwd : String) :
    pabspath p cwd = pnormpath p := by
  simp [pabspath, h]

/-- os.path.relpath does not read the working directory when both its
arguments are absolute. -/
lemma prelpath_cwd_indep (p start cwd1 cwd2 : String)
    (hp : headIsSlash p = true) (hs : headIsSlash start = true) :
    prelpath p start cwd1 = prelpath p start cwd2 := by
  have hne : start ≠ "" := ne_empty_of_headIsSlash start hs
  simp only [prelpath, if_neg hne]
  rw [pabspath_of_abs start hs cwd1, pabspath_of_abs start hs cwd2,
      pabspath_of_abs p hp cwd1, pabspath_of_abs p hp cwd2]

/-- C9 amended: the derived output path is a pure function of the input
path, the input root, the optional output root and the process working
directory; when the input path and the input root are absolute the
working directory is not consulted, so the path depends on the three
configured arguments alone. -/
theorem c9_absolute_inputs_cwd_independent (f ip : String) (out : Option String)
    (cwd1 cwd2 : String) (hf : headIsSlash f = true) (hip : headIsSlash ip = true) :
    output_file_name f ip out cwd1 = output_file_name f ip out cwd2 := by
  cases out with
  | none => rfl
  | some o =>
      simp only [output_file_name]
      rw [pabspath_of_abs f hf cwd1, pabspath_of_abs f hf cwd2,
          prelpath_cwd_indep (pnormpath f) ip cwd1 cwd2 (pnormpath_abs f hf) hip]

/-- Witness for C9 at absolute input path and input root and two
different working directories. -/
theorem c9_absolute_inputs_cwd_independent_witness :
    (headIsSlash "/a/b.pdf" = true ∧ headIsSlash "/a" = true)
    ∧ output_file_name "/a/b.pdf" "/a" (some "/o") "/x"
      = output_file_name "/a/b.pdf" "/a" (some "/o") "/y" :=
  ⟨⟨by decide, by decide⟩,
   c9_absolute_inputs_cwd_independent "/a/b.pdf" "/a" (some "/o") "/x" "/y"
     (by decide) (by decide)⟩

/-- C7: confirmed.  With force unset, a file whose derived output path
already exists is excluded from the submission list of process_batch —
it is never handed to the executor, so no request is made and no
Outcome is produced for it; the submission list is exactly the files
whose output does not yet exist, hence a second run over inputs whose
outputs all exist submits nothing and writes nothing. -/
theorem c7_skip_existing_output_without_force (files : List String) (ip : String)
    (out : Option String) (cwd : String) (fs : FS) (f : String)
    (_hmem : f ∈ files)
    (hex : (fs (output_file_name f ip out cwd)).isSome = true) :
    f ∉ batchSubmissions files ip out cwd false fs
    ∧ batchSubmissions files ip out cwd false fs
        = files.filter (fun g => !(fs (output_file_name g ip out cwd)).isSome)
    ∧ ((∀ g ∈ files, (fs (output_file_name g ip out cwd)).isSome = true) →
        batchSubmissions files ip out cwd false fs = []) := by
  have heq : batchSubmissions files ip out cwd false fs
      = files.filter (fun g => !(fs (output_file_name g ip out cwd)).isSome) := by
    simp [batchSubmissions]
  refine ⟨?_, heq, ?_⟩
  · rw [heq]
    intro hin
    have hpred := (List.mem_filter.mp hin).2
    rw [hex] at hpred
    simp at hpred
  · intro hall
    rw [heq, List.filter_eq_nil_iff]
    intro g hg
    simp [hall g hg]

/-- A filesystem holding exactly the would-be output of
/in/a.tei.xml. -/
def fsW : FS := fun p => if p = "/in/a.dataseer.tei.xml" then some "X" else none

/-- Witness for C7: with force unset and the output already present,
the single input file is not submitted. -/
theorem c7_skip_existing_output_without_force_witness :
    ("/in/a.tei.xml" ∈ ["/in/a.tei.xml"]
      ∧ (fsW (output_file_name "/in/a.tei.xml" "/in" none "/")).isSome = true)
    ∧ ("/in/a.tei.xml" ∉ batchSubmissions ["/in/a.tei.xml"] "/in" none "/" false fsW
      ∧ batchSubmissions ["/in/a.tei.xml"] "/in" none "/" false fsW
          = ["/in/a.tei.xml"].filter
              (fun g => !(fsW (output_file_name g "/in" none "/")).isSome)
      ∧ ((∀ g ∈ ["/in/a.tei.xml"],
            (fsW (output_file_name g "/in" none "/")).isSome = true) →
          batchSubmissions ["/in/a.tei.xml"] "/in" none "/" false fsW = [])) :=
  ⟨⟨by decide, by decide⟩,
   c7_skip_existing_output_without_force ["/in/a.tei.xml"] "/in" none "/" fsW
     "/in/a.tei.xml" (by decide) (by decide)⟩

/-! ### Helper lemmas about the batching loop -/

/-- The batches flatten back to the enumerated file list, in order. -/
lemma batchLoop_join (bs : Nat) :
    ∀ (files acc : List String), (batchLoop bs files acc).flatten = acc ++ files := by
  intro files
  induction files with
  | nil =>
      intro acc
      by_cases h : acc.length > 0
      · simp [batchLoop, h]
      · have hacc : acc = [] := by simpa using h
        simp [batchLoop, hacc]
  | cons f rest ih =>
      intro acc
      simp only [batchLoop]
      split
      · simp [ih]
      · rw [ih]
        simp

/-- Membership in dropLast of a cons. -/
lemma mem_dropLast_cons {α : Type} {b a : α} {l : List α}
    (hb : b ∈ (a :: l).dropLast) : (b = a ∧ l ≠ []) ∨ b ∈ l.dropLast := by
  cases l with
  | nil => simp at hb
  | cons x xs =>
      rw [List.dropLast_cons₂] at hb
      rcases List.mem_cons.mp hb with hb | hb
      · exact .inl ⟨hb, by simp⟩
      · exact .inr hb

/-- Every batch except possibly the last is a full flush of size
batch_size. -/
lemma batchLoop_dropLast_size (bs : Nat) :
    ∀ (files acc : List String),
      ∀ b ∈ (batchLoop bs files acc).dropLast, b.length = bs := by
  intro files
  induction files with
  | nil =>
      intro acc b hb
      by_cases h : acc.length > 0 <;> simp [batchLoop, h] at hb
  | cons f rest ih =>
      intro acc b hb
      simp only [batchLoop] at hb
      split at hb
      · next hlen =>
          rcases mem_dropLast_cons hb with ⟨rfl, -⟩ | hb
          · exact hlen
          · exact ih [] b hb
      · exact ih (acc ++ [f]) b hb

/-- Every batch is nonempty and no larger than batch_size. -/
lemma batchLoop_size_bound (bs : Nat) (hbs : 0 < bs) :
    ∀ (files acc : List String), acc.length < bs →
      ∀ b ∈ batchLoop bs files acc, b ≠ [] ∧ b.length ≤ bs := by
  intro files
  induction files with
  | nil =>
      intro acc hacc b hb
      by_cases h : acc.length > 0
      · simp only [batchLoop, if_pos h, List.mem_singleton] at hb
        subst hb
        exact ⟨List.length_pos.mp h, le_of_lt hacc⟩
      · simp [batchLoop, h] at hb
  | cons f rest ih =>
      intro acc hacc b hb
      simp only [batchLoop] at hb
      split at hb
      · next hlen =>
          rcases List.mem_cons.mp hb with rfl | hb
          · refine ⟨List.length_pos.mp ?_, le_of_eq hlen⟩
            rw [hlen]
            exact hbs
          · exact ih [] (by simpa using hbs) b hb
      · next hlen =>
          have hle : (acc ++ [f]).length ≤ bs := by
            simp only [List.length_append, List.length_singleton]
            omega
          exact ih (acc ++ [f]) (lt_of_le_of_ne hle hlen) b hb

/-- C8: confirmed (for a positive configured batch size).  The
enumeration of DataseerClient.process collects exactly the walk entries
matching the selected service's extension set, every such file lands in
the batch sequence exactly once (the concatenation of the batches is
the discovered file list, so there are no omissions, and distinct
inputs stay distinct), every batch except possibly the last has exactly
batch_size files, and every batch — the final one included — is
nonempty and at most batch_size. -/
theorem c8_batches_partition (cfg : Config) (service : String)
    (walk : List (String × String)) (hbs : 0 < cfg.batch_size) :
    (processBatches cfg service walk).flatten = discoveredFiles service walk
    ∧ (∀ b ∈ (processBatches cfg service walk).dropLast, b.length = cfg.batch_size)
    ∧ (∀ b ∈ processBatches cfg service walk, b ≠ [] ∧ b.length ≤ cfg.batch_size)
    ∧ ((discoveredFiles service walk).Nodup → (processBatches cfg service walk).flatten.Nodup) := by
  have hjoin : (processBatches cfg service walk).flatten = discoveredFiles service walk := by
    simpa [processBatches] using
      batchLoop_join cfg.batch_size (discoveredFiles service walk) []
  refine ⟨hjoin, ?_, ?_, ?_⟩
  · exact fun b hb => batchLoop_dropLast_size cfg.batch_size _ [] b hb
  · exact fun b hb => batchLoop_size_bound cfg.batch_size hbs _ [] (by simpa using hbs) b hb
  · intro hnd
    rw [hjoin]
    exact hnd

/-- A configuration with batch size two, for the C8 witness. -/
def cfgW : Config := ⟨"s", "", 2, 1, 1⟩

/-- Three walk entries matching the TEI service, for the C8 witness. -/
def walkW : List (String × String) :=
  [("/a", "x.tei.xml"), ("/a", "y.tei.xml"), ("/b", "z.tei.xml")]

/-- Witness for C8: three discovered files at batch size two make a
full batch of two and a final batch of one. -/
theorem c8_batches_partition_witness :
    0 < cfgW.batch_size
    ∧ ((processBatches cfgW "processDataseerTEI" walkW).flatten
          = discoveredFiles "processDataseerTEI" walkW
      ∧ (∀ b ∈ (processBatches cfgW "processDataseerTEI" walkW).dropLast,
          b.length = cfgW.batch_size)
      ∧ (∀ b ∈ processBatches cfgW "processDataseerTEI" walkW,
          b ≠ [] ∧ b.length ≤ cfgW.batch_size)
      ∧ ((discoveredFiles "processDataseerTEI" walkW).Nodup →
          (processBatches cfgW "processDataseerTEI" walkW).flatten.Nodup)) :=
  ⟨by decide, c8_batches_partition cfgW "processDataseerTEI" walkW (by decide)⟩

end Dataseer
